import Mathlib

/-!
Verification development for the qualifyr CV-parsing and candidate-scoring
core (`app/parser/core.py`, `app/scoring/engine.py`, `app/models/__init__.py`).

Modelling conventions:
* Python floats are modelled as exact rationals (`ℚ`); `round(x, 2)` is
  modelled by `round2`, rounding to the nearest hundredth (half up).
* Python text is modelled as `List Char` (Python `str` indexes by code
  points, as `List Char` does); stored fields are rebuilt as `String`.
* `date.today()` is passed explicitly as a `PDate` argument.
* Fallible Python code (division by zero, pydantic field validation)
  is modelled with `Option`: `none` is an uncaught exception.
-/

attribute [local semireducible] Rat.add Rat.mul Rat.sub Rat.inv

namespace QR

/-- `round(x, 2)` of Python, on exact rationals: round to the nearest
hundredth.  Ties are rounded half up; the concrete inputs evaluated in
this file stay away from ties, where binary-float rounding can differ. -/
def round2 (x : ℚ) : ℚ := (round (100 * x) : ℤ) / 100

/-- Python date objects, year/month/day. -/
structure PDate where
  year : ℕ
  month : ℕ
  day : ℕ
deriving DecidableEq, Inhabited

/-- Lexicographic comparison of dates, as Python compares `date`s. -/
def pdLe (a b : PDate) : Bool :=
  if a.year ≠ b.year then a.year < b.year
  else if a.month ≠ b.month then a.month < b.month
  else a.day ≤ b.day

/-- `date.min` of Python (year 1, month 1, day 1). -/
def pdateMin : PDate := ⟨1, 1, 1⟩

/-- ASCII lower-casing of one character, as `str.lower` acts on the
ASCII documents this system processes. -/
def lowChar (c : Char) : Char :=
  if 'A' ≤ c ∧ c ≤ 'Z' then Char.ofNat (c.toNat + 32) else c

/-- `str.lower`. -/
def lowStr (s : List Char) : List Char := s.map lowChar

/-- Python whitespace test for `strip`/`\s` (ASCII subset). -/
def isWs (c : Char) : Bool := c = ' ' ∨ c = '\t' ∨ c = '\n' ∨ c = '\r' ∨ c = '\x0b' ∨ c = '\x0c'

/-- `str.strip()`. -/
def pyStrip (s : List Char) : List Char :=
  ((s.dropWhile isWs).reverse.dropWhile isWs).reverse

/-- Contiguous-substring test: Python's `needle in hay` on strings. -/
def subIn (needle hay : List Char) : Bool :=
  match hay with
  | [] => needle.isEmpty
  | _ :: t => needle.isPrefixOf hay || subIn needle t

/-- `str.split(sep)` for a one-character separator (keeps empty pieces,
like Python). -/
def splitOnChar (sep : Char) (s : List Char) : List (List Char) :=
  match s with
  | [] => [[]]
  | c :: t =>
    let rest := splitOnChar sep t
    if c = sep then [] :: rest
    else match rest with
         | [] => [[c]]
         | p :: ps => (c :: p) :: ps

/-- `str.split()` with no argument: split on whitespace runs, dropping
empty pieces. -/
def pySplitWs (s : List Char) : List (List Char) :=
  ((splitOnChar ' ' (s.map (fun c => if isWs c then ' ' else c))).filter (fun p => ¬ p.isEmpty))

/-- Accumulator pass for `firstDedup`: drop elements already seen. -/
def firstDedupAux {α : Type} [DecidableEq α] (seen : List α) : List α → List α
  | [] => []
  | a :: t =>
    if seen.contains a then firstDedupAux seen t
    else a :: firstDedupAux (seen ++ [a]) t

/-- Keys of a Python dict built by a comprehension: duplicates keep the
first occurrence. -/
def firstDedup {α : Type} [DecidableEq α] (l : List α) : List α :=
  firstDedupAux [] l

/-- `s[:n]` for strings. -/
def pyTake (n : ℕ) (s : List Char) : List Char := s.take n

/-- Rebuild a stored `str` field from its characters. -/
def mkStr (s : List Char) : String := ⟨s⟩

-- ===========================================================================
-- Data model (app/models/__init__.py)
-- ===========================================================================

/-- `EducationLevel` enum. -/
inductive EducationLevel where
  | doctorate | masters | bachelors | associates | certificate | high_school | other
deriving DecidableEq, Inhabited

/-- `ScoringMode` enum. -/
inductive ScoringMode where
  | baseline | llm
deriving DecidableEq, Inhabited

/-- `WorkExperience` model. -/
structure WorkExperience where
  employer : String
  title : String
  start_date : Option PDate := none
  end_date : Option PDate := none
  duration_months : Option ℤ := none
  location : Option String := none
  bullets : List String := []
  inferred_seniority : Option String := none
  confidence : ℚ := 0
deriving DecidableEq, Inhabited

/-- `Education` model. -/
structure Education where
  institution : String
  degree : Option EducationLevel := none
  field : Option String := none
  start_date : Option PDate := none
  end_date : Option PDate := none
  gpa : Option ℚ := none
  confidence : ℚ := 0
deriving DecidableEq, Inhabited

/-- `Skill` model. -/
structure Skill where
  name : String
  canonical_id : Option String := none
  group : Option String := none
  years_experience : Option ℚ := none
  proficiency : Option String := none
  confidence : ℚ := 0
deriving DecidableEq, Inhabited

/-- `Certification` model. -/
structure Certification where
  name : String
  issuer : Option String := none
  issue_date : Option PDate := none
  expiry_date : Option PDate := none
  credential_id : Option String := none
  confidence : ℚ := 0
deriving DecidableEq, Inhabited

/-- `ProficiencyLevel` enum. -/
inductive ProficiencyLevel where
  | native | fluent | professional | intermediate | basic
deriving DecidableEq, Inhabited

/-- `Language` model. -/
structure Language where
  name : String
  proficiency : ProficiencyLevel
  confidence : ℚ := 0
deriving DecidableEq, Inhabited

/-- `ContactInfo` model. -/
structure ContactInfo where
  full_name : Option String := none
  emails : List String := []
  phones : List String := []
  location : Option String := none
  linkedin : Option String := none
  github : Option String := none
  portfolio : Option String := none
deriving DecidableEq, Inhabited

/-- `ParsedCandidate` model. -/
structure ParsedCandidate where
  contact : ContactInfo := {}
  work_experience : List WorkExperience := []
  education : List Education := []
  skills : List Skill := []
  certifications : List Certification := []
  languages : List Language := []
  raw_text : Option String := none
  file_hash : Option String := none
deriving DecidableEq, Inhabited

/-- `JobProfile` model. -/
structure JobProfile where
  title : String
  description : String
  required_skills : List String := []
  preferred_skills : List String := []
  min_years_experience : Option ℚ := none
  preferred_years_experience : Option ℚ := none
  min_education : Option EducationLevel := none
  preferred_education : Option EducationLevel := none
  required_certifications : List String := []
  location : Option String := none
  remote_ok : Bool := false
deriving DecidableEq, Inhabited

/-- `ScoreBreakdown` model (raw record; the pydantic `ge/le` validators
are modelled separately by `breakdownValid`). -/
structure ScoreBreakdown where
  skills_score : ℚ
  experience_score : ℚ
  education_score : ℚ
  certifications_score : ℚ
  stability_score : ℚ
  skills_contribution : ℚ := 0
  experience_contribution : ℚ := 0
  education_contribution : ℚ := 0
  certifications_contribution : ℚ := 0
  stability_contribution : ℚ := 0
deriving DecidableEq, Inhabited

/-- The pydantic field validators on `ScoreBreakdown`: the five component
scores carry `ge=0.0, le=100.0`. -/
def breakdownValid (b : ScoreBreakdown) : Bool :=
  0 ≤ b.skills_score ∧ b.skills_score ≤ 100 ∧
  0 ≤ b.experience_score ∧ b.experience_score ≤ 100 ∧
  0 ≤ b.education_score ∧ b.education_score ≤ 100 ∧
  0 ≤ b.certifications_score ∧ b.certifications_score ≤ 100 ∧
  0 ≤ b.stability_score ∧ b.stability_score ≤ 100

/-- `RiskFlag` model. -/
structure RiskFlag where
  type : String
  severity : String
  description : String
deriving DecidableEq, Inhabited

/-- `ScoringResult` model (raw record; `overall_score`'s `ge/le`
validators are modelled in `scoreE`). -/
structure ScoringResult where
  overall_score : ℚ
  breakdown : ScoreBreakdown
  rationale : Option String := none
  flags : List RiskFlag := []
  mode : ScoringMode := .baseline
  llm_adjustment : Option ℚ := none
  model_version : String
  rules_version : String
  request_id : String
deriving DecidableEq, Inhabited

-- ===========================================================================
-- PrestigeDetector (engine.py)
-- ===========================================================================

/-- `TIER_1_UNIVERSITIES`. -/
def tier1Universities : List String :=
  ["oxford", "cambridge", "harvard", "stanford", "mit", "yale", "princeton",
   "caltech", "berkeley", "imperial", "eth zurich", "university college london",
   "ucl", "london school of economics", "lse", "columbia", "chicago"]

/-- `TIER_2_UNIVERSITIES`. -/
def tier2Universities : List String :=
  ["manchester", "edinburgh", "warwick", "bristol", "durham",
   "nottingham", "birmingham", "leeds", "sheffield", "southampton",
   "reading",
   "ucla", "michigan", "virginia", "texas", "washington", "cornell",
   "penn", "duke", "northwestern", "johns hopkins", "carnegie mellon"]

/-- `TIER_1_COMPANIES`. -/
def tier1Companies : List String :=
  ["google", "apple", "microsoft", "amazon", "meta", "facebook",
   "goldman sachs", "morgan stanley", "jp morgan", "jpmorgan",
   "mckinsey", "bain", "bcg", "boston consulting",
   "deloitte", "pwc", "ey", "kpmg", "accenture"]

/-- `TIER_2_COMPANIES`. -/
def tier2Companies : List String :=
  ["salesforce", "adobe", "oracle", "ibm", "uber", "airbnb",
   "barclays", "hsbc", "citi", "citigroup", "credit suisse",
   "rothschild", "lazard", "evercore", "moelis"]

/-- `TIER_3_COMPANIES`. -/
def tier3Companies : List String :=
  ["laven partners", "rolabotic"]

/-- Set-membership by substring: `any(s in name_lower for s in tier)`. -/
def anySubIn (tier : List String) (nameLower : List Char) : Bool :=
  tier.any (fun s => subIn s.toList nameLower)

/-- `PrestigeDetector.get_university_prestige_multiplier`. -/
def universityPrestige (institution : String) : ℚ :=
  if institution.toList.isEmpty then 1
  else
    let nl := lowStr institution.toList
    if anySubIn tier1Universities nl then 13/10
    else if anySubIn tier2Universities nl then 23/20
    else 1

/-- `PrestigeDetector.get_company_prestige_multiplier`. -/
def companyPrestige (company : String) : ℚ :=
  if company.toList.isEmpty then 1
  else
    let nl := lowStr company.toList
    if anySubIn tier1Companies nl then 7/5
    else if anySubIn tier2Companies nl then 6/5
    else if anySubIn tier3Companies nl then 21/20
    else 1

-- ===========================================================================
-- rapidfuzz model (fuzz.ratio / fuzz.partial_ratio)
-- ===========================================================================

/-- One row step of the longest-common-subsequence dynamic programme:
given the previous row (starting at the diagonal cell) and the value of the
cell just computed, produce the rest of the next row. -/
def lcsNextRow (c : Char) : List Char → List ℕ → ℕ → List ℕ
  | [], _, _ => []
  | bj :: bt, prev, cur =>
    match prev with
    | [] => []
    | pdiag :: prest =>
      let up := prest.headD 0
      let nv := if c = bj then pdiag + 1 else max up cur
      nv :: lcsNextRow c bt prest nv

/-- Length of the longest common subsequence. -/
def lcs (a b : List Char) : ℕ :=
  (a.foldl (fun row c => 0 :: lcsNextRow c b row 0) (List.replicate (b.length + 1) 0)).getLastD 0

/-- `fuzz.ratio` of rapidfuzz: normalised indel similarity in [0, 100],
which equals `200·lcs/(|a|+|b|)` (indel distance is `|a|+|b|−2·lcs`).
Modelled from the rapidfuzz documentation (external library). -/
def fuzzSim (a b : List Char) : ℚ :=
  if a.length + b.length = 0 then 100
  else (200 * (lcs a b : ℚ)) / ((a.length : ℚ) + (b.length : ℚ))

/-- `fuzz.partial_ratio` of rapidfuzz: the best `fuzz.ratio` between the
shorter string and a window of the longer string of the shorter's length.
Modelled from the rapidfuzz documentation (external library); the claims
below only rely on it vanishing when the strings share no characters. -/
def windowSim (a b : List Char) : ℚ :=
  let s := if a.length ≤ b.length then a else b
  let l := if a.length ≤ b.length then b else a
  if s.isEmpty then 100
  else ((List.range (l.length - s.length + 1)).map
          (fun i => fuzzSim s ((l.drop i).take s.length))).foldl max 0

-- ===========================================================================
-- SkillMatcher (engine.py)
-- ===========================================================================

/-- `SkillMatcher.synonyms`, in insertion order. -/
def synonymsTable : List (String × List String) :=
  [("python", ["python", "python3", "py"]),
   ("javascript", ["js", "javascript", "ecmascript", "node", "nodejs"]),
   ("java", ["java"]),
   ("csharp", ["c#", "csharp", "c-sharp", ".net"]),
   ("sql", ["sql", "structured query language", "database"]),
   ("aws", ["amazon web services", "aws", "amazon cloud"]),
   ("gcp", ["google cloud", "google cloud platform", "gcp"]),
   ("azure", ["azure", "microsoft azure"]),
   ("kubernetes", ["k8s", "kubernetes"]),
   ("docker", ["docker", "containerization", "containers"]),
   ("postgresql", ["postgres", "postgresql", "psql"]),
   ("mysql", ["mysql"]),
   ("mongodb", ["mongo", "mongodb"]),
   ("react", ["reactjs", "react.js", "react"]),
   ("angular", ["angular", "angularjs"]),
   ("vue", ["vue", "vuejs", "vue.js"]),
   ("excel", ["excel", "microsoft excel", "spreadsheets"]),
   ("financial_modeling", ["financial modeling", "financial modelling", "modeling", "modelling"]),
   ("financial_analysis", ["financial analysis", "finance", "financial"]),
   ("accounting", ["accounting", "accountancy"]),
   ("valuation", ["valuation", "company valuation", "dcf"]),
   ("portfolio_management", ["portfolio management", "portfolio", "investment management"]),
   ("risk_management", ["risk management", "risk"]),
   ("data_analysis", ["data analysis", "analytics", "data analytics"]),
   ("powerpoint", ["powerpoint", "presentations", "ppt"]),
   ("communication", ["communication", "presentation", "writing"])]

/-- `SkillMatcher.categories`, in insertion order. -/
def categoriesTable : List (String × List String) :=
  [("finance", ["finance", "financial", "accounting", "investment", "banking"]),
   ("programming", ["programming", "coding", "development", "software"]),
   ("data", ["data", "analytics", "analysis", "statistics"]),
   ("cloud", ["cloud", "aws", "azure", "gcp"])]

/-- Inner loop of the synonym tier: for each synonym in order, a dict hit
returns 0.85 and a partial containment against any candidate key returns
0.8, before the next synonym is tried. -/
def synScan (keys : List (List Char)) : List String → Option ℚ
  | [] => none
  | syn :: rest =>
    let sc := syn.toList
    if keys.contains sc then some (17/20)
    else if keys.any (fun k => subIn sc k || subIn k sc) then some (4/5)
    else synScan keys rest

/-- Outer loop of the synonym tier over the synonym table. -/
def synLoop (reqLower : List Char) (keys : List (List Char)) :
    List (String × List String) → Option ℚ
  | [] => none
  | (canon, syns) :: rest =>
    if syns.any (fun s => s.toList = reqLower) || canon.toList = reqLower then
      match synScan keys syns with
      | some v => some v
      | none => synLoop reqLower keys rest
    else synLoop reqLower keys rest

/-- Category tier: a category whose keywords appear in the required term
scores 0.6 if any candidate key also carries one of its keywords. -/
def catLoop (reqLower : List Char) (keys : List (List Char)) :
    List (String × List String) → Option ℚ
  | [] => none
  | (_, kws) :: rest =>
    if kws.any (fun kw => subIn kw.toList reqLower) then
      if keys.any (fun k => kws.any (fun kw => subIn kw.toList k)) then some (3/5)
      else catLoop reqLower keys rest
    else catLoop reqLower keys rest

/-- `SkillMatcher.match_skill`.  `keys` are the lower-cased names of the
candidate's skill dict. -/
def matchSkill (required : List Char) (keys : List (List Char)) : ℚ :=
  let rl := pyStrip (lowStr required)
  if keys.contains rl then 1
  else if keys.any (fun k => subIn rl k || subIn k rl) then 9/10
  else
    match synLoop rl keys synonymsTable with
    | some v => v
    | none =>
      match catLoop rl keys categoriesTable with
      | some v => v
      | none =>
        let best := keys.foldl
          (fun b k => max (max b (fuzzSim rl k)) (windowSim rl k * 9/10)) 0
        if best > 80 then 7/10
        else if best > 65 then 1/2
        else if best > 50 then 3/10
        else 0

-- ===========================================================================
-- ScoringEngine (engine.py)
-- ===========================================================================

/-- Component weights; `ScoringEngine.WEIGHTS` is `defaultWeights`. -/
structure Weights where
  skills : ℚ
  experience : ℚ
  education : ℚ
  certifications : ℚ
  stability : ℚ
deriving DecidableEq, Inhabited

/-- `ScoringEngine.WEIGHTS`. -/
def defaultWeights : Weights := ⟨55, 25, 10, 5, 5⟩

/-- Job levels produced by `_detect_job_level`. -/
inductive JobLevel where
  | intern | entry | mid | senior
deriving DecidableEq, Inhabited

/-- `INTERN_KEYWORDS`. -/
def internKeywords : List String :=
  ["intern", "internship", "trainee", "placement", "summer analyst", "spring week"]

/-- `ENTRY_LEVEL_KEYWORDS`. -/
def entryKeywords : List String :=
  ["entry", "junior", "graduate", "analyst", "associate", "assistant"]

/-- `SENIOR_KEYWORDS`. -/
def seniorKeywords : List String :=
  ["senior", "lead", "principal", "staff", "head", "director", "manager", "vp", "vice president"]

/-- `ScoringEngine._detect_job_level`.  A `min_years_experience` of 0.0 is
falsy in Python, so it falls through to the default. -/
def detectJobLevel (job : JobProfile) : JobLevel :=
  let combined := lowStr job.title.toList ++ [' '] ++ lowStr job.description.toList
  if internKeywords.any (fun kw => subIn kw.toList combined) then .intern
  else if seniorKeywords.any (fun kw => subIn kw.toList combined) then .senior
  else if entryKeywords.any (fun kw => subIn kw.toList combined) then .entry
  else
    match job.min_years_experience with
    | some v =>
      if v ≠ 0 then (if v ≤ 1 then .entry else if v ≤ 3 then .mid else .senior) else .mid
    | none => .mid

/-- The coursework keyword table of `_score_skills` (finance keywords), in
insertion order: pattern and the pseudo-skill name it adds. -/
def financeKeywords : List (String × String) :=
  [("corporate finance", "corporate finance"),
   ("financial modelling", "financial modeling"),
   ("financial modeling", "financial modeling"),
   ("portfolio management", "portfolio management"),
   ("fx", "foreign exchange"),
   ("debt markets", "debt markets"),
   ("econometrics", "econometrics"),
   ("accounting", "accounting"),
   ("valuation", "valuation"),
   ("investment", "investment"),
   ("financial analysis", "financial analysis")]

/-- Coursework augmentation of the candidate-skill dict for intern/entry
jobs: adds pseudo-skill keys not already present. -/
def courseworkAugment (keys : List (List Char)) (edus : List Education) : List (List Char) :=
  edus.foldl (fun ks edu =>
    let cw := lowStr ((edu.field.getD "").toList ++ [' '] ++ edu.institution.toList)
    financeKeywords.foldl (fun ks2 p =>
      if subIn p.1.toList cw ∧ ¬ ks2.contains p.2.toList then ks2 ++ [p.2.toList] else ks2)
      ks) keys

/-- Keys of the candidate-skill dict built by `_score_skills` (lower-cased
names, first occurrence kept, coursework pseudo-skills appended for
intern/entry jobs when the candidate lists any education). -/
def skillKeys (cand : ParsedCandidate) (level : JobLevel) : List (List Char) :=
  let keys := firstDedup (cand.skills.map (fun s => lowStr s.name.toList))
  if (level = .intern ∨ level = .entry) ∧ ¬ cand.education.isEmpty then
    courseworkAugment keys cand.education
  else keys

/-- Base credit from the number of distinct candidate skills, by job
level (`_score_skills`). -/
def baseCredit (level : JobLevel) (n : ℕ) : ℚ :=
  if n = 0 then 0
  else
    match level with
    | .intern => min 40 ((n : ℚ) * 4)
    | .entry => min 35 ((n : ℚ) * 7/2)
    | _ => min 30 ((n : ℚ) * 3)

/-- The required-skills ratio→score band map of `_score_skills`. -/
def requiredBandScore (base mratio : ℚ) : ℚ :=
  if mratio ≥ 4/5 then min 95 (85 + (mratio - 4/5) * 50)
  else if mratio ≥ 1/2 then 70 + (mratio - 1/2) * 50
  else if mratio ≥ 3/10 then 50 + (mratio - 3/10) * 100
  else base + mratio * 67

/-- Sum of match strengths over a skill list divided by its length
(`matches / len(...)` of `_score_skills`). -/
def requiredMatchFrac (keys : List (List Char)) (reqs : List String) : ℚ :=
  ((reqs.map (fun r => matchSkill r.toList keys)).sum) / (reqs.length : ℚ)

/-- `ScoringEngine._score_skills`: returns (component score, weighted
contribution), both rounded to 2 decimals.  Contributions always use the
fixed default weights, as in the source. -/
def scoreSkills (cand : ParsedCandidate) (job : JobProfile) (level : JobLevel) : ℚ × ℚ :=
  if job.required_skills.isEmpty ∧ job.preferred_skills.isEmpty then
    let cs : ℚ :=
      if ¬ cand.skills.isEmpty then min 80 (55 + (cand.skills.length : ℚ) * 5) else 50
    (round2 cs, round2 (55 * cs / 100))
  else
    let keys := skillKeys cand level
    let base := baseCredit level keys.length
    let reqScore : ℚ :=
      if ¬ job.required_skills.isEmpty then
        requiredBandScore base (requiredMatchFrac keys job.required_skills)
      else 85
    let prefScore : ℚ :=
      if ¬ job.preferred_skills.isEmpty then
        min 92 (requiredMatchFrac keys job.preferred_skills * 92)
      else 0
    let comp0 : ℚ :=
      if ¬ job.required_skills.isEmpty then reqScore * 65/100 + prefScore * 35/100
      else prefScore
    let comp := if comp0 < base ∧ ¬ cand.skills.isEmpty then base else comp0
    (round2 comp, round2 (round2 comp * 55 / 100))

/-- Accumulator of `_score_experience`'s loop over work entries. -/
structure ExpAcc where
  totalMonths : ℤ
  weightedMonths : ℚ
  prestigeMonths : ℚ
  maxPrestige : ℚ
deriving DecidableEq, Inhabited

/-- Recency decay factor of `_score_experience`. -/
def recencyFactor (today : PDate) (w : WorkExperience) : ℚ :=
  match w.end_date with
  | some e => max (1/2) (1 - ((today.year : ℚ) - (e.year : ℚ)) * (1/10))
  | none => 1

/-- The accumulation loop of `_score_experience`; entries with falsy
(`None` or 0) duration are skipped. -/
def expAccum (today : PDate) (ws : List WorkExperience) : ExpAcc :=
  ws.foldl (fun acc w =>
    match w.duration_months with
    | some d =>
      if d ≠ 0 then
        let pm := companyPrestige w.employer
        let rf := recencyFactor today w
        ⟨acc.totalMonths + d, acc.weightedMonths + d * rf,
         acc.prestigeMonths + d * rf * pm, max acc.maxPrestige pm⟩
      else acc
    | none => acc) ⟨0, 0, 0, 1⟩

/-- `is_likely_intern` / `is_early_career`: every entry has a truthy
duration of at most 6 months. -/
def isLikelyIntern (ws : List WorkExperience) : Bool :=
  ws.all (fun w =>
    match w.duration_months with
    | some d => d ≠ 0 ∧ d ≤ 6
    | none => false)

/-- The component-score computation of `_score_experience` for a
candidate with work experience.  Returns `none` exactly where the Python
raises `ZeroDivisionError`: the mid/senior meets-minimum branch divides
by `preferred − min_years_experience`, which can be zero. -/
def expComponent (cand : ParsedCandidate) (job : JobProfile) (level : JobLevel)
    (today : PDate) : Option ℚ :=
  let a := expAccum today cand.work_experience
  let totalYears : ℚ := (a.totalMonths : ℚ) / 12
  let weightedYears := a.weightedMonths / 12
  let prestigeYears := a.prestigeMonths / 12
  let maxPrestige := a.maxPrestige
  let noReqScore : ℚ :=
    min 95 (min 85 (weightedYears / 6 * 85) + (maxPrestige - 1) * 10)
  match level with
  | .intern =>
    some (if isLikelyIntern cand.work_experience ∨ totalYears < 1 then
      let bs : ℚ × ℚ :=
        if maxPrestige ≥ 7/5 then (70, 25)
        else if maxPrestige ≥ 6/5 then (60, 25)
        else if maxPrestige ≥ 21/20 then (45, 20)
        else (35, 15)
      let bonus := (prestigeYears / (1/2)) * bs.2
      min (bs.1 + bs.2) (bs.1 + bonus)
    else 90 + (maxPrestige - 1) * 5)
  | .entry =>
    some (if totalYears ≤ 2 then min 95 (75 + (prestigeYears / 2) * 20) else 85)
  | _ =>
    match job.min_years_experience with
    | some minY =>
      if minY ≠ 0 then
        if totalYears ≥ minY then
          let pref :=
            match job.preferred_years_experience with
            | some p => if p ≠ 0 then p else minY * 3/2
            | none => minY * 3/2
          let excess := min (prestigeYears - minY) (pref - minY)
          if pref - minY = 0 then none
          else some (min 95 (75 + (excess / (pref - minY)) * 20))
        else
          some (min 85 ((totalYears / minY) * 75 + (maxPrestige - 1) * 20))
      else some noReqScore
    | none => some noReqScore

/-- `ScoringEngine._score_experience`. -/
def scoreExperience (cand : ParsedCandidate) (job : JobProfile) (level : JobLevel)
    (today : PDate) : Option (ℚ × ℚ) :=
  if cand.work_experience.isEmpty then
    match level with
    | .intern => some (65, round2 (25 * (65/100)))
    | .entry => some (30, round2 (25 * (30/100)))
    | _ => some (0, 0)
  else
    match expComponent cand job level today with
    | none => none
    | some c => some (round2 c, round2 (round2 c * 25 / 100))

/-- Degree ranks of `_score_education`; `OTHER` is absent from the Python
dict, so it ranks 0, as does a missing degree. -/
def levelRank : Option EducationLevel → ℕ
  | some .high_school => 1
  | some .certificate => 2
  | some .associates => 3
  | some .bachelors => 4
  | some .masters => 5
  | some .doctorate => 6
  | some .other => 0
  | none => 0

/-- The scan of `_score_education` over education entries: highest ranked
degree and maximum institution prestige (prestige is only examined for
entries that carry a degree, as in the source). -/
def eduScan (edus : List Education) : Option EducationLevel × ℚ :=
  edus.foldl (fun acc edu =>
    match edu.degree with
    | some deg =>
      let newHighest := if levelRank (some deg) > levelRank acc.1 then some deg else acc.1
      (newHighest, max acc.2 (universityPrestige edu.institution))
    | none => acc) (none, 1)

/-- `ScoringEngine._score_education`. -/
def scoreEducation (cand : ParsedCandidate) (job : JobProfile) : ℚ × ℚ :=
  if cand.education.isEmpty then
    match job.min_education with
    | some _ => (0, 0)
    | none => (round2 50, round2 (10 * (1/2)))
  else
    let scan := eduScan cand.education
    let highest := scan.1
    let maxPrestige := scan.2
    match job.min_education with
    | none =>
      let comp :=
        match highest with
        | some _ =>
          min 92 (min 80 (50 + (levelRank highest : ℚ) * 8) + (maxPrestige - 1) * 20)
        | none => 50
      (round2 comp, round2 (comp * 10 / 100))
    | some minEdu =>
      let minRank := levelRank (some minEdu)
      let candRank := levelRank highest
      let comp :=
        if candRank ≥ minRank then
          let c2 : ℚ :=
            match job.preferred_education with
            | some prefEdu => if candRank ≥ levelRank (some prefEdu) then 93 else 88
            | none => 88
          min 98 (c2 + (maxPrestige - 1) * 15)
        else
          let baseScore : ℚ :=
            if minRank > 0 then ((candRank : ℚ) / (minRank : ℚ)) * 70 else 0
          min 80 (baseScore + (maxPrestige - 1) * 15)
      (round2 comp, round2 (round2 comp * 10 / 100))

/-- `ScoringEngine._score_certifications`. -/
def scoreCerts (cand : ParsedCandidate) (job : JobProfile) : ℚ × ℚ :=
  if job.required_certifications.isEmpty then
    let comp : ℚ :=
      if ¬ cand.certifications.isEmpty then
        min 80 (50 + (cand.certifications.length : ℚ) * 10)
      else 50
    (round2 comp, round2 (comp * 5 / 100))
  else if cand.certifications.isEmpty then (0, 0)
  else
    let candCerts := firstDedup (cand.certifications.map (fun c => lowStr c.name.toList))
    let nMatches := (job.required_certifications.filter (fun rc =>
      candCerts.any (fun cc => fuzzSim (lowStr rc.toList) cc > 80))).length
    let comp := min 90 (((nMatches : ℚ) / (job.required_certifications.length : ℚ)) * 90)
    (round2 comp, round2 (round2 comp * 5 / 100))

/-- `ScoringEngine._score_stability`. -/
def scoreStability (cand : ParsedCandidate) (level : JobLevel) : ℚ × ℚ :=
  if cand.work_experience.length < 2 then
    if level = .intern ∨ level = .entry then (round2 85, round2 (5 * (85/100)))
    else (round2 75, round2 (5 * (75/100)))
  else if (level = .intern ∨ level = .entry) ∨ isLikelyIntern cand.work_experience then
    let comp : ℚ := if cand.work_experience.length ≥ 2 then 85 else 80
    (round2 comp, round2 (round2 comp * 5 / 100))
  else
    let tenures := cand.work_experience.filterMap (fun w =>
      match w.duration_months with
      | some d => if d ≠ 0 then some d else none
      | none => none)
    if tenures.isEmpty then (round2 75, round2 (5 * (75/100)))
    else
      let avgYears := (((tenures.sum : ℚ)) / (tenures.length : ℚ)) / 12
      let c0 : ℚ :=
        if avgYears ≥ 4 then 90
        else if avgYears ≥ 3 then 85
        else if avgYears ≥ 2 then 75
        else if avgYears ≥ 1 then 60 + (avgYears - 1) * 15
        else avgYears * 60
      let shortStints := (tenures.filter (fun t => t < 12)).length
      let c1 := if shortStints ≥ 3 then c0 * 7/10 else c0
      (round2 c1, round2 (round2 c1 * 5 / 100))

/-- Rendering of `{x:.0f}` in the flag descriptions (nearest integer). -/
def fmt0 (x : ℚ) : String := toString (round x : ℤ)

/-- The three threshold flags of `_generate_flags`. -/
def riskFlagsBase (skills exp stab : ℚ) : List RiskFlag :=
  (if skills < 60 then
    [⟨"missing_required_skills", "high",
      "Skills match is low (" ++ fmt0 skills ++ "/100). May lack required competencies."⟩]
   else []) ++
  (if exp < 50 then
    [⟨"insufficient_experience", "medium",
      "Experience score is low (" ++ fmt0 exp ++ "/100). May not meet minimum requirements."⟩]
   else []) ++
  (if stab < 60 then
    [⟨"tenure_volatility", "medium",
      "Stability score is low (" ++ fmt0 stab ++ "/100). History of short tenures."⟩]
   else [])

/-- Sort key of the gap scan: `w.start_date or date.min`. -/
def startKey (w : WorkExperience) : PDate := w.start_date.getD pdateMin

/-- Stable ascending insertion by start key (Python `sorted` is a stable
ascending sort; any stable ascending sort computes the same list). -/
def insByKey (a : WorkExperience) : List WorkExperience → List WorkExperience
  | [] => [a]
  | b :: t => if pdLe (startKey b) (startKey a) then b :: insByKey a t else a :: b :: t

/-- `sorted(candidate.work_experience, key=lambda w: w.start_date or date.min)`. -/
def sortByStart (l : List WorkExperience) : List WorkExperience :=
  l.foldl (fun acc a => insByKey a acc) []

/-- Month distance used by the gap scan. -/
def gapMonths (e s : PDate) : ℤ :=
  ((s.year : ℤ) - (e.year : ℤ)) * 12 + ((s.month : ℤ) - (e.month : ℤ))

/-- The gap loop of `_generate_flags`: first adjacent pair (in sorted
order) with both dates present and a gap of more than 6 months; the
Python `break` stops after the first flag. -/
def firstGapFlag : List WorkExperience → Option RiskFlag
  | [] => none
  | [_] => none
  | a :: b :: t =>
    match a.end_date, b.start_date with
    | some e, some s =>
      if gapMonths e s > 6 then
        some ⟨"employment_gap", "low",
          "Gap of " ++ toString (gapMonths e s) ++ " months between "
            ++ a.employer ++ " and " ++ b.employer⟩
      else firstGapFlag (b :: t)
    | _, _ => firstGapFlag (b :: t)

/-- `ScoringEngine._generate_flags`. -/
def generateFlags (cand : ParsedCandidate) (skills exp stab : ℚ) : List RiskFlag :=
  riskFlagsBase skills exp stab ++
  (if ¬ cand.work_experience.isEmpty then
    (firstGapFlag (sortByStart cand.work_experience)).toList
   else [])

/-- `ScoringEngine.score`.  `none` models an uncaught exception: either
the `ZeroDivisionError` of `_score_experience`, or a pydantic
`ValidationError` when a component score or the overall score falls
outside [0, 100]. -/
def scoreE (cand : ParsedCandidate) (job : JobProfile) (customWeights : Option Weights)
    (today : PDate) (requestId : String) : Option ScoringResult :=
  let w := customWeights.getD defaultWeights
  let level := detectJobLevel job
  let sk := scoreSkills cand job level
  match scoreExperience cand job level today with
  | none => none
  | some ex =>
    let ed := scoreEducation cand job
    let ce := scoreCerts cand job
    let st := scoreStability cand level
    let overall := round2 (sk.1 * w.skills / 100 + ex.1 * w.experience / 100 +
      ed.1 * w.education / 100 + ce.1 * w.certifications / 100 + st.1 * w.stability / 100)
    let flags := generateFlags cand sk.1 ex.1 st.1
    let breakdown : ScoreBreakdown :=
      ⟨round2 sk.1, round2 ex.1, round2 ed.1, round2 ce.1, round2 st.1,
       round2 sk.2, round2 ex.2, round2 ed.2, round2 ce.2, round2 st.2⟩
    if breakdownValid breakdown ∧ 0 ≤ overall ∧ overall ≤ 100 then
      some ⟨overall, breakdown, none, flags, .baseline, none, "baseline-2.1", "2.1.0", requestId⟩
    else none

-- ===========================================================================
-- CVParser (parser/core.py): date extraction
-- ===========================================================================

/-- Month alternation `(?:Jan|Feb|...|Dec)` with its month number. -/
def monthNames : List (String × ℕ) :=
  [("jan", 1), ("feb", 2), ("mar", 3), ("apr", 4), ("may", 5), ("jun", 6),
   ("jul", 7), ("aug", 8), ("sep", 9), ("oct", 10), ("nov", 11), ("dec", 12)]

/-- Case-insensitive match of one month alternative at the head of the
input; the alternatives are three distinct letters, so at most one
matches. -/
def matchMonthPrefix (s : List Char) : Option (ℕ × List Char) :=
  match monthNames.find? (fun p => p.1.toList = lowStr (s.take 3)) with
  | some p => some (p.2, s.drop 3)
  | none => none

def digitVal (c : Char) : ℕ := c.toNat - 48

/-- `(?:Jan|...)[a-z]*\s+\d{4}` at the head of the input (`IGNORECASE`),
returning (month, year) and the rest.  The greedy pieces need no
backtracking: after the maximal letter run the next character is not a
letter, and after the maximal whitespace run it is not whitespace. -/
def parseMonthYear (s : List Char) : Option ((ℕ × ℕ) × List Char) :=
  match matchMonthPrefix s with
  | none => none
  | some (m, r1) =>
    let r2 := r1.dropWhile Char.isAlpha
    match r2 with
    | c :: _ =>
      if isWs c then
        match r2.dropWhile isWs with
        | d1 :: d2 :: d3 :: d4 :: rest =>
          if d1.isDigit ∧ d2.isDigit ∧ d3.isDigit ∧ d4.isDigit then
            some ((m, digitVal d1 * 1000 + digitVal d2 * 100 + digitVal d3 * 10 + digitVal d4),
                  rest)
          else none
        | _ => none
      else none
    | [] => none

/-- End alternative of the range patterns:
`Present|Current|(?:Jan|...)[a-z]*\s+\d{4}` (`IGNORECASE`); `none` in the
first component is Present/Current. -/
def parseRangeEnd (s : List Char) : Option (Option (ℕ × ℕ) × List Char) :=
  if lowStr (s.take 7) = "present".toList then some (none, s.drop 7)
  else if lowStr (s.take 7) = "current".toList then some (none, s.drop 7)
  else
    match parseMonthYear s with
    | some (my, r) => some (some my, r)
    | none => none

/-- One attempt of the date-range pattern
`(?:Jan|...)[a-z]*\s+\d{4}\s*[-–]\s*(?:Present|Current|(?:Jan|...)[a-z]*\s+\d{4})`
at the head of the input. -/
def matchRangeAt (s : List Char) : Option (((ℕ × ℕ) × Option (ℕ × ℕ)) × List Char) :=
  match parseMonthYear s with
  | none => none
  | some (startMY, r1) =>
    match r1.dropWhile isWs with
    | c :: r3 =>
      if c = '-' ∨ c = '–' then
        match parseRangeEnd (r3.dropWhile isWs) with
        | some (endMY, rest) => some ((startMY, endMY), rest)
        | none => none
      else none
    | [] => none

/-- `re.finditer` of the range pattern: leftmost matches, non-overlapping
(the scan resumes after each match).  The fuel starts at the text length;
every step consumes at least one character, so it never runs out. -/
def findRangesAux : ℕ → List Char → List ((ℕ × ℕ) × Option (ℕ × ℕ))
  | 0, _ => []
  | _, [] => []
  | fuel + 1, s@(_ :: t) =>
    match matchRangeAt s with
    | some (r, rest) => r :: findRangesAux fuel rest
    | none => findRangesAux fuel t

/-- All matches of the date-range pattern in the text. -/
def findRanges (s : List Char) : List ((ℕ × ℕ) × Option (ℕ × ℕ)) :=
  findRangesAux s.length s

/-- Python word character (`\w`): letters, digits, underscore (ASCII). -/
def isWordChar (c : Char) : Bool := c.isAlpha ∨ c.isDigit ∨ c = '_'

/-- `\b(?:Jan|...)[a-z]*\s+\d{4}\b` finditer: the previous character must
not be a word character, nor the one after the year. -/
def findMonthYearTokensAux : ℕ → Bool → List Char → List (ℕ × ℕ)
  | 0, _, _ => []
  | _, _, [] => []
  | fuel + 1, atBoundary, s@(c :: t) =>
    if atBoundary then
      match parseMonthYear s with
      | some (my, rest) =>
        if rest.isEmpty ∨ ¬ isWordChar (rest.headD ' ') then
          my :: findMonthYearTokensAux fuel false rest
        else findMonthYearTokensAux fuel (¬ isWordChar c) t
      | none => findMonthYearTokensAux fuel (¬ isWordChar c) t
    else findMonthYearTokensAux fuel (¬ isWordChar c) t

def findMonthYearTokens (s : List Char) : List (ℕ × ℕ) :=
  findMonthYearTokensAux s.length true s

/-- Exactly four digits at the head, with a non-word character (or end)
after them. -/
def parseYear4 (s : List Char) : Option (ℕ × List Char) :=
  match s with
  | d1 :: d2 :: d3 :: d4 :: rest =>
    if d1.isDigit ∧ d2.isDigit ∧ d3.isDigit ∧ d4.isDigit ∧
       (rest.isEmpty ∨ ¬ isWordChar (rest.headD ' ')) then
      some (digitVal d1 * 1000 + digitVal d2 * 100 + digitVal d3 * 10 + digitVal d4, rest)
    else none
  | _ => none

/-- `\b\d{1,2}/\d{4}\b` at the head of the input. -/
def parseNumMonthYearAt (s : List Char) : Option ((ℕ × ℕ) × List Char) :=
  match s with
  | c1 :: c2 :: rest2 =>
    if c1.isDigit then
      if c2.isDigit then
        match rest2 with
        | '/' :: r3 =>
          match parseYear4 r3 with
          | some (y, rest) => some ((digitVal c1 * 10 + digitVal c2, y), rest)
          | none => none
        | _ => none
      else if c2 = '/' then
        match parseYear4 rest2 with
        | some (y, rest) => some ((digitVal c1, y), rest)
        | none => none
      else none
    else none
  | _ => none

def findNumMonthYearAux : ℕ → Bool → List Char → List (ℕ × ℕ)
  | 0, _, _ => []
  | _, _, [] => []
  | fuel + 1, atBoundary, s@(c :: t) =>
    if atBoundary then
      match parseNumMonthYearAt s with
      | some (my, rest) => my :: findNumMonthYearAux fuel false rest
      | none => findNumMonthYearAux fuel (¬ isWordChar c) t
    else findNumMonthYearAux fuel (¬ isWordChar c) t

def findNumMonthYear (s : List Char) : List (ℕ × ℕ) :=
  findNumMonthYearAux s.length true s

/-- `\b\d{4}\b` finditer. -/
def findBareYearsAux : ℕ → Bool → List Char → List ℕ
  | 0, _, _ => []
  | _, _, [] => []
  | fuel + 1, atBoundary, s@(c :: t) =>
    if atBoundary then
      match parseYear4 s with
      | some (y, rest) => y :: findBareYearsAux fuel false rest
      | none => findBareYearsAux fuel (¬ isWordChar c) t
    else findBareYearsAux fuel (¬ isWordChar c) t

def findBareYears (s : List Char) : List ℕ :=
  findBareYearsAux s.length true s

/-- The date ordering as a proposition, for sorting. -/
def pdLeP (a b : PDate) : Prop := pdLe a b = true

instance : DecidableRel pdLeP := fun a b => inferInstanceAs (Decidable (pdLe a b = true))

theorem pdLe_total (a b : PDate) : pdLe a b = true ∨ pdLe b a = true := by
  unfold pdLe
  split_ifs <;> simp_all <;> omega

theorem pdLe_trans {a b c : PDate} (h1 : pdLe a b = true) (h2 : pdLe b c = true) :
    pdLe a c = true := by
  unfold pdLe at *
  split_ifs at * <;> simp_all <;> omega

instance : IsTotal PDate pdLeP := ⟨pdLe_total⟩

instance : IsTrans PDate pdLeP := ⟨fun _ _ _ => pdLe_trans⟩

/-- `sorted(set(dates))`: dedupe, then sort ascending (the deduped dates
are distinct, so any insertion sort produces Python's sorted order). -/
def pySortedSet (l : List PDate) : List PDate :=
  List.insertionSort pdLeP (firstDedup l)

/-- `CVParser._extract_dates`.

`dateparser.parse` on a month-year or year token is modelled as a date
with that year/month and day 1 (the library fills in the current day;
all dates produced in one call share it, and neither the ordering of two
such dates nor the month arithmetic downstream depends on it, so it is
normalised to 1).  A bare year token takes the current month, as the
library does.  A numeric `mm/yyyy` token is modelled from the spec's
"numeric month/year" wording: months outside 1..12 are treated as an
unparsable token.  Range-pattern dates are appended in textual order
(start then end), exactly as the source does; only the fallback scan is
sorted. -/
def extractDates (text : List Char) (today : PDate) : List PDate :=
  let ranges := findRanges text
  let rangeDates := ranges.foldl (fun acc r =>
    let acc1 := if 1990 ≤ r.1.2 ∧ r.1.2 ≤ 2030 then acc ++ [(⟨r.1.2, r.1.1, 1⟩ : PDate)] else acc
    match r.2 with
    | some e => if 1990 ≤ e.2 ∧ e.2 ≤ 2030 then acc1 ++ [(⟨e.2, e.1, 1⟩ : PDate)] else acc1
    | none => acc1) []
  if rangeDates.length ≥ 1 then rangeDates.take 2
  else
    let p1 := (findMonthYearTokens text).filterMap (fun my =>
      if 1990 ≤ my.2 ∧ my.2 ≤ 2030 then some (⟨my.2, my.1, 1⟩ : PDate) else none)
    let p2 := (findNumMonthYear text).filterMap (fun my =>
      if 1 ≤ my.1 ∧ my.1 ≤ 12 ∧ 1990 ≤ my.2 ∧ my.2 ≤ 2030 then
        some (⟨my.2, my.1, 1⟩ : PDate)
      else none)
    let p3 := (findBareYears text).filterMap (fun y =>
      if 1990 ≤ y ∧ y ≤ 2030 then some (⟨y, today.month, 1⟩ : PDate) else none)
    (pySortedSet (p1 ++ p2 ++ p3)).take 2

-- ===========================================================================
-- CVParser: work-entry, education-entry and certification parsing
-- ===========================================================================

/-- `re.search` of the range pattern on a line: index of the first
position where a match starts. -/
def rangeSearchAux (i : ℕ) : List Char → Option ℕ
  | [] => none
  | c :: t =>
    if (matchRangeAt (c :: t)).isSome then some i else rangeSearchAux (i + 1) t

def rangeSearchIdx (s : List Char) : Option ℕ := rangeSearchAux 0 s

/-- `line.startswith(('•', '-', '*', '–'))`. -/
def isBulletLine (l : List Char) : Bool :=
  match l with
  | [] => false
  | c :: _ => c = '•' ∨ c = '-' ∨ c = '*' ∨ c = '–'

/-- State of the header-classification loop of `_parse_work_entry`. -/
structure HdrState where
  title : Option (List Char)
  company : Option (List Char)
  dateLine : Option (List Char)
  bulletStart : ℕ
deriving DecidableEq, Inhabited

/-- The loop over the first four non-empty lines of `_parse_work_entry`:
a bullet line or a date-bearing line breaks out with the layout decided
by the line index; otherwise lines fill title, then company. -/
def hdrGo (lines : List (List Char)) : List (ℕ × List Char) → HdrState → HdrState
  | [], st => st
  | (i, line) :: rest, st =>
    if isBulletLine line then { st with bulletStart := i }
    else
      match rangeSearchIdx line with
      | some idx =>
        let before := pyStrip (line.take idx)
        if i = 0 then
          { title := (match lines.get? 1 with | some l2 => some l2 | none => st.title),
            company := some (if ¬ before.isEmpty then before else (pySplitWs line).headD []),
            dateLine := some line, bulletStart := 2 }
        else if i = 1 then
          { title := some (if ¬ before.isEmpty then before else "Unknown Position".toList),
            company := (if st.company.isSome then st.company else some (lines.headD [])),
            dateLine := some line, bulletStart := 2 }
        else
          { title := (if st.title.isSome then st.title else some (lines.headD [])),
            company := (if st.company.isSome then st.company
                        else some ((lines.get? 1).getD [])),
            dateLine := some line, bulletStart := i + 1 }
      | none =>
        if st.title.isNone then hdrGo lines rest { st with title := some line }
        else if st.company.isNone then hdrGo lines rest { st with company := some line }
        else hdrGo lines rest st

/-- First segment of `re.split(r'\s{2,}', company)`: everything before
the first run of two or more whitespace characters. -/
def upToDoubleWs : List Char → List Char
  | [] => []
  | [c] => [c]
  | a :: b :: t => if isWs a ∧ isWs b then [] else a :: upToDoubleWs (b :: t)

/-- `re.sub(r'^[•\-*–]\s*', '', l).strip()`. -/
def stripBullet (l : List Char) : List Char :=
  let l1 :=
    match l with
    | c :: t => if c = '•' ∨ c = '-' ∨ c = '*' ∨ c = '–' then t.dropWhile isWs else l
    | [] => l
  pyStrip l1

/-- `re.match(r'^(?:Jan|Feb|...)', clean)` — case-sensitive, unlike the
date patterns. -/
def startsWithMonthCap (l : List Char) : Bool :=
  ["Jan", "Feb", "Mar", "Apr", "May", "Jun", "Jul", "Aug", "Sep", "Oct", "Nov", "Dec"].any
    (fun m => m.toList.isPrefixOf l)

/-- `CVParser.seniority_keywords`, in insertion order. -/
def seniorityKeywordTable : List (String × List String) :=
  [("junior", ["junior", "jr", "associate", "entry", "trainee"]),
   ("mid", ["developer", "engineer", "analyst", "specialist", "consultant"]),
   ("senior", ["senior", "sr", "lead", "principal", "staff"]),
   ("lead", ["head", "director", "vp", "chief", "cto", "cio", "manager", "team lead"])]

/-- `CVParser._infer_seniority`. -/
def inferSeniority (title : List Char) : String :=
  let tl := lowStr title
  match seniorityKeywordTable.find? (fun p => p.2.any (fun kw => subIn kw.toList tl)) with
  | some p => p.1
  | none => "mid"

/-- Stripped non-empty lines of a text block. -/
def blockLines (entry : List Char) : List (List Char) :=
  ((splitOnChar '\n' entry).map pyStrip).filter (fun l => ¬ l.isEmpty)

/-- `CVParser._parse_work_entry`. -/
def parseWorkEntry (entry : List Char) (today : PDate) : Option WorkExperience :=
  let lines := blockLines entry
  if lines.length < 2 then none
  else
    let st := hdrGo lines (lines.take 4).enum ⟨none, none, none, 0⟩
    let title := st.title.getD (lines.headD [])
    let company := st.company.getD
      (if lines.length > 1 then (lines.get? 1).getD [] else "Unknown Company".toList)
    let companyClean :=
      if company.contains ',' then pyStrip ((splitOnChar ',' company).headD [])
      else if subIn [' ', ' '] company then pyStrip (upToDoubleWs company)
      else pyStrip company
    let dates := extractDates (st.dateLine.getD entry) today
    let start? := dates.head?
    let end? := dates.get? 1
    let duration : Option ℤ :=
      match start? with
      | some s =>
        let e := end?.getD today
        some (max 1 (((e.year : ℤ) - (s.year : ℤ)) * 12 + ((e.month : ℤ) - (s.month : ℤ))))
      | none => none
    let bullets := (((lines.drop st.bulletStart).map stripBullet).filter (fun c =>
      ¬ c.isEmpty ∧ c.length > 15 ∧ ¬ startsWithMonthCap c)).take 10
    let confidence : ℚ :=
      min (19/20) (1/2 + (if dates.length ≥ 2 then 1/5 else 0)
        + (if ¬ bullets.isEmpty then 3/20 else 0)
        + (if companyClean ≠ "Unknown Company".toList then 3/20 else 0))
    some ⟨mkStr (pyTake 200 companyClean), mkStr (pyTake 200 title), start?, end?, duration,
          none, bullets.map mkStr, some (inferSeniority title), confidence⟩

/-- `degree_keywords` of `_parse_education_entry`, in rank order
(doctorate first, first match wins). -/
def degreeKeywordTable : List (EducationLevel × List String) :=
  [(.doctorate, ["phd", "ph.d", "ph.d.", "doctorate", "doctoral", "d.phil"]),
   (.masters, ["master", "master\x27s", "msc", "m.sc", "m.sc.", "ma", "m.a", "m.a.", "mba", "m.b.a"]),
   (.bachelors, ["bachelor", "bachelor\x27s", "bsc", "b.sc", "b.sc.", "ba", "b.a", "b.a.", "bs", "b.s", "b.s."]),
   (.associates, ["associate", "associate\x27s", "as", "a.s", "a.s."])]

/-- `CVParser._parse_education_entry`. -/
def parseEducationEntry (entry : List Char) (today : PDate) : Option Education :=
  let lines := blockLines entry
  if lines.isEmpty then none
  else
    let institution := lines.headD []
    let entryLower := lowStr entry
    let degree : Option EducationLevel :=
      match degreeKeywordTable.find? (fun p => p.2.any (fun kw => subIn kw.toList entryLower)) with
      | some p => some p.1
      | none => none
    let dates := extractDates entry today
    some ⟨mkStr (pyTake 200 institution), degree, none, dates.head?, dates.get? 1, none, 3/5⟩

/-- `known_certs` of `_extract_certifications`. -/
def knownCerts : List String := ["aws", "azure", "gcp", "pmp", "scrum", "cissp", "cisa"]

/-- ASCII upper-casing (`str.upper` on the ASCII cert codes). -/
def upChar (c : Char) : Char :=
  if 'a' ≤ c ∧ c ≤ 'z' then Char.ofNat (c.toNat - 32) else c

def upStr (s : List Char) : List Char := s.map upChar

/-- The per-line loop of `CVParser._extract_certifications`, applied to
the text of a located certifications section. -/
def extractCertLines (certText : List Char) (today : PDate) : List Certification :=
  ((((splitOnChar '\n' certText).map pyStrip).filterMap (fun line =>
    if line.length > 5 then
      let certName :=
        match knownCerts.find? (fun k => subIn k.toList (lowStr line)) with
        | some k => upStr k.toList
        | none => line
      let dates := extractDates line today
      some (⟨mkStr (pyTake 200 certName), none, dates.head?, none, none, 1/2⟩ : Certification)
    else none)).take 10)

-- ===========================================================================
-- CVParser: text-extraction gates (parse_file / _extract_text)
-- ===========================================================================

/-- Document-level failures of §7: raised as `ValueError`s in the source
(`Unsupported file type: {ext}` and `Extracted text is too short or
empty`). -/
inductive DocErr where
  | unsupportedFileType (ext : String)
  | emptyDocument
deriving DecidableEq, Inhabited

/-- `filename.lower().split('.')[-1]`. -/
def fileExt (filename : List Char) : List Char :=
  (splitOnChar '.' (lowStr filename)).getLastD []

/-- The supported extensions of `_extract_text`. -/
def supportedExts : List (List Char) :=
  ["pdf".toList, "docx".toList, "doc".toList, "txt".toList]

/-- `CVParser._extract_text`.  The pdf, docx and txt extraction results
are oracle parameters: they come from external libraries (pdfplumber,
python-docx, `bytes.decode`), functions of the raw bytes only. -/
def extractTextE (pdfText docxText txtText filename : List Char) : Except DocErr (List Char) :=
  let ext := fileExt filename
  if ext = "pdf".toList then .ok pdfText
  else if ext = "docx".toList ∨ ext = "doc".toList then .ok docxText
  else if ext = "txt".toList then .ok txtText
  else .error (.unsupportedFileType (mkStr ext))

/-- The document-level gate of `CVParser.parse_file`: extraction followed
by the `not text or len(text.strip()) < 50` check. -/
def parseFileGate (pdfText docxText txtText filename : List Char) : Except DocErr (List Char) :=
  match extractTextE pdfText docxText txtText filename with
  | .error e => .error e
  | .ok t => if t.isEmpty ∨ (pyStrip t).length < 50 then .error .emptyDocument else .ok t

-- ===========================================================================
-- Helper lemmas
-- ===========================================================================

theorem round2_sub_le (x : ℚ) : round2 x - x ≤ 1 / 200 := by
  unfold round2
  rw [round_eq]
  have h := Int.floor_le (100 * x + 1 / 2)
  linarith

theorem neg_lt_round2_sub (x : ℚ) : -(1 / 200) < round2 x - x := by
  unfold round2
  rw [round_eq]
  have h := Int.sub_one_lt_floor (100 * x + 1 / 2)
  linarith

/-- Five individually rounded terms against the rounded sum: the gap is
strictly below 0.03. -/
theorem round2_five_sum_bound (x1 x2 x3 x4 x5 : ℚ) :
    |round2 x1 + round2 x2 + round2 x3 + round2 x4 + round2 x5
      - round2 (x1 + x2 + x3 + x4 + x5)| < 3 / 100 := by
  have h1 := round2_sub_le x1
  have h2 := round2_sub_le x2
  have h3 := round2_sub_le x3
  have h4 := round2_sub_le x4
  have h5 := round2_sub_le x5
  have g1 := neg_lt_round2_sub x1
  have g2 := neg_lt_round2_sub x2
  have g3 := neg_lt_round2_sub x3
  have g4 := neg_lt_round2_sub x4
  have g5 := neg_lt_round2_sub x5
  have hs := round2_sub_le (x1 + x2 + x3 + x4 + x5)
  have gs := neg_lt_round2_sub (x1 + x2 + x3 + x4 + x5)
  rw [abs_lt]
  constructor <;> linarith

/-- Rounding to two decimals is idempotent. -/
theorem round2_round2 (x : ℚ) : round2 (round2 x) = round2 x := by
  unfold round2
  have : (100 : ℚ) * ((round (100 * x) : ℤ) / 100) = ((round (100 * x) : ℤ) : ℚ) := by
    field_simp
  rw [this, round_intCast]

theorem round2_intCast (k : ℤ) : round2 (k : ℚ) = k := by
  unfold round2
  have h : (100 : ℚ) * (k : ℚ) = ((100 * k : ℤ) : ℚ) := by push_cast; ring
  rw [h, round_intCast]
  push_cast
  field_simp

theorem round2_eq_self {x : ℚ} (k : ℤ) (h : x = (k : ℚ)) : round2 x = x := by
  rw [h, round2_intCast]

theorem round2_eq_self_nat {x : ℚ} (k : ℕ) (h : x = (k : ℚ)) : round2 x = x :=
  round2_eq_self (k : ℤ) (by exact_mod_cast h)

theorem round2_min_int {x y : ℚ} (kx ky : ℤ) (hx : x = (kx : ℚ)) (hy : y = (ky : ℚ)) :
    round2 (min x y) = min x y := by
  rcases min_cases x y with ⟨h, _⟩ | ⟨h, _⟩ <;> rw [h]
  · exact round2_eq_self kx hx
  · exact round2_eq_self ky hy

/-- The skills contribution is the rounded product of the rounded skills
score with its weight share. -/
theorem scoreSkills_snd (c : ParsedCandidate) (j : JobProfile) (l : JobLevel) :
    (scoreSkills c j l).2 = round2 ((scoreSkills c j l).1 * 55 / 100) := by
  unfold scoreSkills
  split
  · simp only []
    have hcs : ∀ cs : ℚ, (∃ k : ℤ, cs = (k : ℚ)) →
        round2 (55 * cs / 100) = round2 (round2 cs * 55 / 100) := by
      rintro cs ⟨k, hk⟩
      rw [round2_eq_self k hk]
      ring_nf
    split
    · apply hcs
      rcases min_cases (80 : ℚ) (55 + (c.skills.length : ℚ) * 5) with ⟨h, _⟩ | ⟨h, _⟩ <;> rw [h]
      · exact ⟨80, by norm_num⟩
      · exact ⟨55 + 5 * c.skills.length, by push_cast; ring⟩
    · apply hcs
      exact ⟨50, by norm_num⟩
  · simp only []

/-- The experience contribution is the rounded product of the returned
experience score with its weight share. -/
theorem scoreExperience_snd (c : ParsedCandidate) (j : JobProfile) (l : JobLevel)
    (t : PDate) (p : ℚ × ℚ) (h : scoreExperience c j l t = some p) :
    p.2 = round2 (p.1 * 25 / 100) := by
  unfold scoreExperience at h
  split at h
  · split at h <;> injection h with h' <;> rw [← h'] <;> decide
  · cases hx : expComponent c j l t with
    | none => rw [hx] at h; exact absurd h (by simp)
    | some v =>
      rw [hx] at h
      injection h with h'
      rw [← h']

theorem universityPrestige_mem (s : String) :
    universityPrestige s = 1 ∨ universityPrestige s = 23/20 ∨ universityPrestige s = 13/10 := by
  unfold universityPrestige
  simp only []
  split_ifs
  · exact Or.inl rfl
  · exact Or.inr (Or.inr rfl)
  · exact Or.inr (Or.inl rfl)
  · exact Or.inl rfl

theorem max_prestige_mem {a b : ℚ}
    (ha : a = 1 ∨ a = 23/20 ∨ a = 13/10) (hb : b = 1 ∨ b = 23/20 ∨ b = 13/10) :
    max a b = 1 ∨ max a b = 23/20 ∨ max a b = 13/10 := by
  rcases ha with h | h | h <;> rcases hb with g | g | g <;> subst h <;> subst g <;> decide

theorem eduScan_foldl_mem (l : List Education)
    (acc : Option EducationLevel × ℚ) (hacc : acc.2 = 1 ∨ acc.2 = 23/20 ∨ acc.2 = 13/10) :
    (l.foldl (fun acc edu =>
      match edu.degree with
      | some deg =>
        ((if levelRank (some deg) > levelRank acc.1 then some deg else acc.1),
          max acc.2 (universityPrestige edu.institution))
      | none => acc) acc).2 = 1 ∨
    (l.foldl (fun acc edu =>
      match edu.degree with
      | some deg =>
        ((if levelRank (some deg) > levelRank acc.1 then some deg else acc.1),
          max acc.2 (universityPrestige edu.institution))
      | none => acc) acc).2 = 23/20 ∨
    (l.foldl (fun acc edu =>
      match edu.degree with
      | some deg =>
        ((if levelRank (some deg) > levelRank acc.1 then some deg else acc.1),
          max acc.2 (universityPrestige edu.institution))
      | none => acc) acc).2 = 13/10 := by
  induction l generalizing acc with
  | nil => exact hacc
  | cons e t ih =>
    simp only [List.foldl_cons]
    apply ih
    cases hdeg : e.degree with
    | none => simpa using hacc
    | some deg =>
      simp only []
      exact max_prestige_mem hacc (universityPrestige_mem e.institution)

theorem eduScan_snd_mem (l : List Education) :
    (eduScan l).2 = 1 ∨ (eduScan l).2 = 23/20 ∨ (eduScan l).2 = 13/10 := by
  unfold eduScan
  exact eduScan_foldl_mem l (none, 1) (by norm_num)

/-- The education contribution is the rounded product of the rounded
education score with its weight share. -/
theorem scoreEducation_snd (c : ParsedCandidate) (j : JobProfile) :
    (scoreEducation c j).2 = round2 ((scoreEducation c j).1 * 10 / 100) := by
  unfold scoreEducation
  split
  · split <;> simp only [] <;> decide
  · split
    · simp only []
      have hc : round2 (match (eduScan c.education).1 with
          | some _ =>
            min 92 (min 80 (50 + (levelRank (eduScan c.education).1 : ℚ) * 8)
              + ((eduScan c.education).2 - 1) * 20)
          | none => (50 : ℚ)) = (match (eduScan c.education).1 with
          | some _ =>
            min 92 (min 80 (50 + (levelRank (eduScan c.education).1 : ℚ) * 8)
              + ((eduScan c.education).2 - 1) * 20)
          | none => (50 : ℚ)) := by
        cases hh : (eduScan c.education).1 with
        | none => simp only [hh]; decide
        | some d =>
          simp only [hh]
          rcases eduScan_snd_mem c.education with hp | hp | hp <;> rw [hp]
          · apply round2_eq_self_nat (min 92 (min 80 (50 + levelRank (some d) * 8) + 0))
            push_cast [Nat.cast_min]
            norm_num
          · apply round2_eq_self_nat (min 92 (min 80 (50 + levelRank (some d) * 8) + 3))
            push_cast [Nat.cast_min]
            norm_num
          · apply round2_eq_self_nat (min 92 (min 80 (50 + levelRank (some d) * 8) + 6))
            push_cast [Nat.cast_min]
            norm_num
      rw [hc]
    · simp only []

/-- The certifications contribution is the rounded product of the rounded
certifications score with its weight share. -/
theorem scoreCerts_snd (c : ParsedCandidate) (j : JobProfile) :
    (scoreCerts c j).2 = round2 ((scoreCerts c j).1 * 5 / 100) := by
  unfold scoreCerts
  split
  · simp only []
    have hcs : ∀ cs : ℚ, (∃ k : ℤ, cs = (k : ℚ)) →
        round2 (cs * 5 / 100) = round2 (round2 cs * 5 / 100) := by
      rintro cs ⟨k, hk⟩
      rw [round2_eq_self k hk]
    split
    · apply hcs
      rcases min_cases (80 : ℚ) (50 + (c.certifications.length : ℚ) * 10) with ⟨h, _⟩ | ⟨h, _⟩ <;>
        rw [h]
      · exact ⟨80, by norm_num⟩
      · exact ⟨50 + 10 * c.certifications.length, by push_cast; ring⟩
    · apply hcs
      exact ⟨50, by norm_num⟩
  · split
    · simp only []
      decide
    · simp only []

/-- The stability contribution is the rounded product of the rounded
stability score with its weight share. -/
theorem scoreStability_snd (c : ParsedCandidate) (l : JobLevel) :
    (scoreStability c l).2 = round2 ((scoreStability c l).1 * 5 / 100) := by
  unfold scoreStability
  split
  · split <;> decide
  · split
    · rfl
    · simp only []
      split
      · decide
      · rfl
-- ===========================================================================
-- Concrete inputs used by the claim theorems
-- ===========================================================================

/-- A fixed "today" for the concrete evaluations. -/
def t0 : PDate := ⟨2026, 10, 12⟩

/-- C1 failing input, job: senior-level (min 5 years, detected via the
fallback threshold), with `preferred_years_experience` equal to
`min_years_experience`. -/
def c1job : JobProfile :=
  { title := "Engineer", description := "",
    min_years_experience := some 5, preferred_years_experience := some 5 }

/-- C1 failing input, candidate: one current role of 60 months at an
unlisted employer, so total experience meets the 5-year minimum. -/
def c1cand : ParsedCandidate :=
  { work_experience := [{ employer := "Zzyx Ltd", title := "Dev", duration_months := some 60 }] }

/-- C2 failing input, job: senior-level with min 5 and preferred 5.1
years. -/
def c2job : JobProfile :=
  { title := "Engineer", description := "",
    min_years_experience := some 5, preferred_years_experience := some (51/10) }

/-- C2 failing input, candidate: 60 months at an unlisted employer that
ended ten years before `t0`, so the recency factor is 0.5 and the
prestige-weighted years (2.5) fall far below the 5-year minimum. -/
def c2work : WorkExperience :=
  { employer := "Zzyx Ltd", title := "Dev", start_date := some ⟨2011, 6, 1⟩,
    end_date := some ⟨2016, 6, 1⟩, duration_months := some 60 }

def c2cand : ParsedCandidate := { work_experience := [c2work] }

-- ===========================================================================
-- Claim theorems
-- ===========================================================================

/-- C1: the claim says `ScoringEngine.score` is total — in particular for
a mid/senior job whose `preferred_years_experience` equals its
`min_years_experience` and a candidate meeting the minimum.  The code is
not: on exactly that input `_score_experience` evaluates
`excess / (preferred - job.min_years_experience)` with a zero
denominator, raising `ZeroDivisionError` (modelled as `none`), so
`score` raises instead of returning a `ScoringResult`. -/
theorem score_divzero_at_equal_preferred :
    detectJobLevel c1job = JobLevel.senior ∧
    scoreExperience c1cand c1job (detectJobLevel c1job) t0 = none ∧
    scoreE c1cand c1job none t0 "unknown" = none := by
  refine ⟨by decide, by decide, by decide⟩

/-- One work entry of the C3 counterexample candidate. -/
def c3work (e : Option PDate) (d : ℤ) : WorkExperience :=
  { employer := "Zzyx Ltd", title := "Dev", end_date := e, duration_months := some d }

/-- C3 counterexample candidate: eight roles (seven of 12 months, one of
37), one ending two years before `t0` and the rest five years before;
one skill, a high-school degree from a tier-1-named school, and two
certifications. -/
def c3cand : ParsedCandidate :=
  { work_experience :=
      c3work (some ⟨2024, 3, 1⟩) 12 ::
        (List.replicate 6 (c3work (some ⟨2021, 3, 1⟩) 12) ++ [c3work (some ⟨2021, 3, 1⟩) 37]),
    education := [{ institution := "Harvard School of Hard Knocks", degree := some .high_school }],
    skills := [{ name := "Python" }],
    certifications := [{ name := "aws" }, { name := "pmp" }] }

/-- C3 counterexample job: senior level, 125 required skills of which the
candidate matches 76 exactly, a doctorate minimum, and 7 required
certifications of which 2 match. -/
def c3job : JobProfile :=
  { title := "Staff Engineer", description := "",
    required_skills := List.replicate 76 "python" ++ List.replicate 49 "qqqq",
    min_education := some .doctorate,
    required_certifications := ["aws", "pmp", "qq1", "qq2", "qq3", "qq4", "qq5"] }

/-- The scoring result of the C3 counterexample input. -/
def c3res : ScoringResult := (scoreE c3cand c3job none t0 "unknown").getD default

set_option maxRecDepth 40000 in
/-- C3 (counterexample): with the default weights and no custom override,
this input produces component scores 49.01 / 75.67 / 16.17 / 25.71 /
63.91, whose contributions each round upward; the contribution sum is
51.99 while the overall score is 51.97, so the difference is 0.02 ≥ 0.01
and the claimed tolerance fails even without custom weights. -/
theorem contribution_sum_gap_exceeds_tolerance :
    scoreE c3cand c3job none t0 "unknown" = some c3res ∧
    ¬ (|c3res.breakdown.skills_contribution + c3res.breakdown.experience_contribution
        + c3res.breakdown.education_contribution + c3res.breakdown.certifications_contribution
        + c3res.breakdown.stability_contribution - c3res.overall_score| < 1 / 100) := by
  refine ⟨by decide, by decide⟩

/-- C3 (amended): when no custom weights are passed, the sum of the five
weighted contributions differs from `overall_score` by strictly less
than 0.03 (each of the five contributions and the overall score is
individually rounded to two decimals, so the gap is below six half-cent
rounding errors; the claimed 0.01 is violated on reachable inputs, and
with custom weights the gap is unbounded because contributions are
always computed from the engine's fixed default weights). -/
theorem contribution_sum_within_003_default_weights
    (cand : ParsedCandidate) (job : JobProfile) (today : PDate) (rid : String)
    (r : ScoringResult) (h : scoreE cand job none today rid = some r) :
    |r.breakdown.skills_contribution + r.breakdown.experience_contribution +
      r.breakdown.education_contribution + r.breakdown.certifications_contribution +
      r.breakdown.stability_contribution - r.overall_score| < 3 / 100 := by
  unfold scoreE at h
  simp only [Option.getD_none] at h
  cases hx : scoreExperience cand job (detectJobLevel job) today with
  | none => rw [hx] at h; exact absurd h (by simp)
  | some ex =>
    rw [hx] at h
    split at h
    next heq => exact absurd heq (by simp)
    next ex2 heq =>
    injection heq with heq'
    subst heq'
    split at h
    · injection h with h'
      subst h'
      simp only [defaultWeights]
      rw [scoreSkills_snd, round2_round2]
      rw [scoreExperience_snd cand job (detectJobLevel job) today ex hx, round2_round2]
      rw [scoreEducation_snd, round2_round2]
      rw [scoreCerts_snd, round2_round2]
      rw [scoreStability_snd, round2_round2]
      exact round2_five_sum_bound _ _ _ _ _
    · exact absurd h (by simp)

/-- An empty candidate and a minimal job, used to witness C3's amended
theorem: scoring succeeds and the contribution sum (38.75) matches the
overall score exactly. -/
def cEmpty : ParsedCandidate := {}

def jPlain : JobProfile := { title := "x", description := "" }

def cEmptyRes : ScoringResult := (scoreE cEmpty jPlain none t0 "unknown").getD default

/-- Witness for C3's amended theorem at a concrete input. -/
theorem contribution_sum_within_003_witness :
    |cEmptyRes.breakdown.skills_contribution + cEmptyRes.breakdown.experience_contribution +
      cEmptyRes.breakdown.education_contribution + cEmptyRes.breakdown.certifications_contribution +
      cEmptyRes.breakdown.stability_contribution - cEmptyRes.overall_score| < 3 / 100 :=
  contribution_sum_within_003_default_weights cEmpty jPlain t0 "unknown" cEmptyRes (by decide)

theorem firstDedupAux_mem {α : Type} [DecidableEq α] {a : α} :
    ∀ (seen l : List α), a ∈ l → a ∉ seen → a ∈ firstDedupAux seen l := by
  intro seen l
  induction l generalizing seen with
  | nil => intro h; exact absurd h (by simp)
  | cons b t ih =>
    intro hmem hsn
    unfold firstDedupAux
    rcases List.mem_cons.mp hmem with hab | hat
    · subst hab
      have : ¬ seen.contains a := by simpa [List.elem_iff] using hsn
      rw [if_neg (by simpa using this)]
      exact List.mem_cons_self _ _
    · by_cases hc : seen.contains b
      · rw [if_pos hc]
        exact ih seen hat hsn
      · rw [if_neg hc]
        by_cases hab : a = b
        · subst hab; exact List.mem_cons_self _ _
        · refine List.mem_cons_of_mem _ (ih (seen ++ [b]) hat ?_)
          simp [hsn, hab]

theorem mem_firstDedup {α : Type} [DecidableEq α] {a : α} {l : List α} (h : a ∈ l) :
    a ∈ firstDedup l :=
  firstDedupAux_mem [] l h (by simp)

theorem mem_financeFold (fks : List (String × String)) (cw : List Char)
    (ks : List (List Char)) {a : List Char} (h : a ∈ ks) :
    a ∈ fks.foldl (fun ks2 p =>
      if subIn p.1.toList cw ∧ ¬ ks2.contains p.2.toList then ks2 ++ [p.2.toList] else ks2) ks := by
  induction fks generalizing ks with
  | nil => exact h
  | cons p t ih =>
    simp only [List.foldl_cons]
    apply ih
    split
    · exact List.mem_append_left _ h
    · exact h

theorem mem_courseworkAugment {a : List Char} {keys : List (List Char)}
    (edus : List Education) (h : a ∈ keys) : a ∈ courseworkAugment keys edus := by
  unfold courseworkAugment
  induction edus generalizing keys with
  | nil => exact h
  | cons e t ih =>
    simp only [List.foldl_cons]
    exact ih (mem_financeFold _ _ _ h)

theorem mem_skillKeys {cand : ParsedCandidate} {sk : Skill} (level : JobLevel)
    (hmem : sk ∈ cand.skills) : lowStr sk.name.toList ∈ skillKeys cand level := by
  unfold skillKeys
  have hbase : lowStr sk.name.toList ∈
      firstDedup (cand.skills.map (fun s => lowStr s.name.toList)) :=
    mem_firstDedup (List.mem_map_of_mem _ hmem)
  split
  · exact mem_courseworkAugment _ hbase
  · exact hbase

theorem baseCredit_le_40 (level : JobLevel) (n : ℕ) : baseCredit level n ≤ 40 := by
  unfold baseCredit
  split
  · norm_num
  · split
    · exact le_trans (min_le_left _ _) (by norm_num)
    · exact le_trans (min_le_left _ _) (by norm_num)
    · exact le_trans (min_le_left _ _) (by norm_num)

theorem matchSkill_of_mem {keys : List (List Char)} (h : "python".toList ∈ keys) :
    matchSkill "python".toList keys = 1 := by
  unfold matchSkill
  have hrl : pyStrip (lowStr "python".toList) = "python".toList := by decide
  rw [hrl, if_pos (by simpa [List.elem_iff] using h)]

/-- C4 (amended): for any job requiring exactly the skill `"python"` with
no preferred skills, and any candidate listing a skill whose lower-cased
name is `"python"`, the skills component is exactly 61.75: the exact
match gives match ratio 1.0 and required score 95, but the empty
preferred list contributes 0 through the fixed 65/35 split, so
`95·0.65 + 0·0.35 = 61.75` — below the claimed 85. -/
theorem python_exact_match_skills_6175
    (cand : ParsedCandidate) (job : JobProfile) (level : JobLevel)
    (hreq : job.required_skills = ["python"]) (hpref : job.preferred_skills = [])
    (hsk : ∃ sk ∈ cand.skills, lowStr sk.name.toList = "python".toList) :
    (scoreSkills cand job level).1 = 247/4 := by
  obtain ⟨sk, hmem, hname⟩ := hsk
  have hkeys : "python".toList ∈ skillKeys cand level := by
    rw [← hname]; exact mem_skillKeys level hmem
  unfold scoreSkills
  rw [hreq, hpref]
  have hfrac : requiredMatchFrac (skillKeys cand level) ["python"] = 1 := by
    unfold requiredMatchFrac
    have hm : List.map (fun r => matchSkill r.toList (skillKeys cand level)) ["python"]
        = [matchSkill "python".toList (skillKeys cand level)] := rfl
    rw [hm, matchSkill_of_mem hkeys]
    norm_num
  have hband : requiredBandScore (baseCredit level (skillKeys cand level).length) 1 = 95 := by
    unfold requiredBandScore
    rw [if_pos (by norm_num)]
    norm_num
  rw [if_neg (by simp)]
  simp only [List.isEmpty_cons, List.isEmpty_nil]
  norm_num [hfrac, hband]
  have hfl : ¬ ((247 : ℚ)/4 < baseCredit level (skillKeys cand level).length ∧
      ¬ cand.skills = []) := by
    rintro ⟨hlt, _⟩
    have hb := baseCredit_le_40 level (skillKeys cand level).length
    linarith
  rw [if_neg hfl]
  decide

/-- C4 counterexample candidate: one skill named `Python`. -/
def c4cand : ParsedCandidate := { skills := [{ name := "Python" }] }

/-- C4 counterexample job: `required_skills=["python"]`, nothing else. -/
def c4job : JobProfile := { title := "Developer", description := "", required_skills := ["python"] }

def c4res : ScoringResult := (scoreE c4cand c4job none t0 "unknown").getD default

/-- C4 (counterexample): scoring this candidate against this job
produces a skills component of 61.75, refuting the claimed "at least
85". -/
theorem python_exact_match_skills_below_85 :
    scoreE c4cand c4job none t0 "unknown" = some c4res ∧
    c4res.breakdown.skills_score = 247/4 ∧ ¬ (c4res.breakdown.skills_score ≥ 85) := by
  refine ⟨by decide, by decide, by decide⟩

/-- Witness for C4's amended theorem at a concrete input. -/
theorem python_exact_match_skills_6175_witness :
    (scoreSkills c4cand c4job (detectJobLevel c4job)).1 = 247/4 :=
  python_exact_match_skills_6175 c4cand c4job (detectJobLevel c4job) rfl rfl
    ⟨{ name := "Python" }, by decide, by decide⟩

/-- C5 counterexample candidate: ten distinct skills, so the mid-level
base credit is `min 30 (10·3) = 30`. -/
def c5cand : ParsedCandidate :=
  { skills :=
      [{ name := "Python" }, { name := "JavaScript" }, { name := "Excel" },
       { name := "Statistics" }, { name := "Zzza" }, { name := "Zzzb" }, { name := "Zzzc" },
       { name := "Zzzd" }, { name := "Zzze" }, { name := "Zzzf" }] }

/-- C5 counterexample job A: 40 required skills whose match strengths sum
to 11.95 (nine exact 1.0, one containment 0.9, one synonym 0.85, two
category 0.6, twenty-seven zero), giving match ratio 0.29875 — just
below the 0.3 band boundary. -/
def c5jobA : JobProfile :=
  { title := "Engineer", description := "",
    required_skills := List.replicate 9 "python" ++ ["script", "js", "dataq", "dataq"]
      ++ List.replicate 27 "qqqq" }

/-- C5 counterexample job B: 40 required skills of which twelve match
exactly, giving match ratio exactly 0.3. -/
def c5jobB : JobProfile :=
  { title := "Engineer", description := "",
    required_skills := List.replicate 12 "python" ++ List.replicate 28 "qqqq" }

set_option maxRecDepth 40000 in
/-- C5 (counterexample): match ratio 0.29875 < 0.3, yet the skills
component for job A (32.51) exceeds that for job B (32.50), because the
sub-0.3 band value `base_credit + ratio·67 = 30 + 20.01625` exceeds the
band value 50 at ratio 0.3 — the score is not monotone in the match
ratio across the 0.3 boundary. -/
theorem skills_band_score_drops_at_03 :
    detectJobLevel c5jobA = JobLevel.mid ∧ detectJobLevel c5jobB = JobLevel.mid ∧
    requiredMatchFrac (skillKeys c5cand JobLevel.mid) c5jobA.required_skills = 239/800 ∧
    requiredMatchFrac (skillKeys c5cand JobLevel.mid) c5jobB.required_skills = 3/10 ∧
    (239 : ℚ)/800 < 3/10 ∧
    (scoreSkills c5cand c5jobA JobLevel.mid).1 > (scoreSkills c5cand c5jobB JobLevel.mid).1 := by
  refine ⟨by decide, by decide, by decide, by decide, by decide, by decide⟩

/-- C5 (amended): the required-skills band map is monotone in the match
ratio provided the base credit is at most 29.9; above that (base credit
30 is reachable with ten distinct candidate skills on a mid/senior job,
and up to 40 for intern jobs) the map drops across the 0.3 boundary, as
the counterexample shows. -/
theorem required_band_monotone_low_base (base r1 r2 : ℚ)
    (hb0 : 0 ≤ base) (hb : base ≤ 299/10)
    (h0 : 0 ≤ r1) (h12 : r1 ≤ r2) (h2 : r2 ≤ 1) :
    requiredBandScore base r1 ≤ requiredBandScore base r2 := by
  unfold requiredBandScore
  split_ifs <;>
    first
    | linarith
    | exact min_le_min (by norm_num) (by linarith)
    | exact le_min (by linarith) (by linarith)

/-- Witness for C5's amended theorem at concrete inputs. -/
theorem required_band_monotone_low_base_witness :
    requiredBandScore 0 0 ≤ requiredBandScore 0 1 :=
  required_band_monotone_low_base 0 0 1 (by norm_num) (by norm_num) (by norm_num)
    (by norm_num) (by norm_num)

/-- Whether the sorted work list has some adjacent pair with both dates
present and a gap of more than 6 months (the claim's hypothesis). -/
def hasGapB : List WorkExperience → Bool
  | [] => false
  | [_] => false
  | a :: b :: t =>
    (match a.end_date, b.start_date with
     | some e, some s => decide (gapMonths e s > 6)
     | _, _ => false) || hasGapB (b :: t)

/-- Number of employment-gap flags in a flag list. -/
def gapFlagCount (l : List RiskFlag) : ℕ :=
  (l.filter (fun f => f.type = "employment_gap")).length

theorem firstGapFlag_isSome : ∀ l : List WorkExperience, (firstGapFlag l).isSome = hasGapB l := by
  intro l
  induction l with
  | nil => rfl
  | cons a t ih =>
    cases t with
    | nil => rfl
    | cons b t2 =>
      unfold firstGapFlag hasGapB
      cases hae : a.end_date with
      | none => simpa using ih
      | some e =>
        cases hbs : b.start_date with
        | none => simpa using ih
        | some s =>
          by_cases hg : gapMonths e s > 6
          · simp [hg]
          · simpa [hg] using ih

theorem firstGapFlag_shape : ∀ (l : List WorkExperience) (f : RiskFlag),
    firstGapFlag l = some f → f.type = "employment_gap" ∧ f.severity = "low" := by
  intro l
  induction l with
  | nil => intro f h; exact absurd h (by simp [firstGapFlag])
  | cons a t ih =>
    cases t with
    | nil => intro f h; exact absurd h (by simp [firstGapFlag])
    | cons b t2 =>
      intro f h
      unfold firstGapFlag at h
      split at h
      · split at h
        · injection h with h'
          rw [← h']
          exact ⟨rfl, rfl⟩
        · exact ih f h
      · exact ih f h

theorem gapFlagCount_base (s e st : ℚ) : gapFlagCount (riskFlagsBase s e st) = 0 := by
  have h1 : ¬ (("missing_required_skills" : String) = "employment_gap") := by decide
  have h2 : ¬ (("insufficient_experience" : String) = "employment_gap") := by decide
  have h3 : ¬ (("tenure_volatility" : String) = "employment_gap") := by decide
  unfold gapFlagCount riskFlagsBase
  split_ifs <;> simp [h1, h2, h3]

theorem gapFlagCount_append (l1 l2 : List RiskFlag) :
    gapFlagCount (l1 ++ l2) = gapFlagCount l1 + gapFlagCount l2 := by
  unfold gapFlagCount
  rw [List.filter_append, List.length_append]

/-- C7: `_generate_flags` emits at most one `employment_gap` flag; it
emits exactly one (with severity `low`) whenever the work history,
sorted by start date, has two adjacent roles with both dates present and
a month gap greater than 6; and every employment-gap flag it emits has
severity `low`.  The `break` after the first qualifying pair prevents
duplicates regardless of how many qualifying gaps exist. -/
theorem employment_gap_flag_unique (cand : ParsedCandidate) (ss es sts : ℚ) :
    gapFlagCount (generateFlags cand ss es sts) ≤ 1 ∧
    (hasGapB (sortByStart cand.work_experience) = true →
      gapFlagCount (generateFlags cand ss es sts) = 1) ∧
    (∀ f ∈ generateFlags cand ss es sts, f.type = "employment_gap" → f.severity = "low") := by
  have hbase := gapFlagCount_base ss es sts
  have hlen : ∀ x : List RiskFlag, gapFlagCount x ≤ x.length :=
    fun x => List.length_filter_le _ x
  refine ⟨?_, ?_, ?_⟩
  · unfold generateFlags
    rw [gapFlagCount_append, hbase]
    simp only [Nat.zero_add]
    refine le_trans (hlen _) ?_
    split
    · cases firstGapFlag (sortByStart cand.work_experience) <;> simp
    · simp
  · intro hgap
    have hne : cand.work_experience.isEmpty = false := by
      cases hw : cand.work_experience with
      | nil =>
        rw [hw] at hgap
        exact absurd hgap (by decide)
      | cons a t => simp [hw]
    have hsome : (firstGapFlag (sortByStart cand.work_experience)).isSome = true := by
      rw [firstGapFlag_isSome]
      exact hgap
    obtain ⟨f, hf⟩ := Option.isSome_iff_exists.mp hsome
    unfold generateFlags
    rw [gapFlagCount_append, hbase]
    rw [if_pos (by simp [hne])]
    rw [hf]
    have := (firstGapFlag_shape _ f hf).1
    simp [gapFlagCount, List.filter, this]
  · intro f hmem htype
    unfold generateFlags at hmem
    rcases List.mem_append.mp hmem with hin | hin
    · exfalso
      unfold riskFlagsBase at hin
      have h1 : ¬ (("missing_required_skills" : String) = "employment_gap") := by decide
      have h2 : ¬ (("insufficient_experience" : String) = "employment_gap") := by decide
      have h3 : ¬ (("tenure_volatility" : String) = "employment_gap") := by decide
      split_ifs at hin <;> simp at hin <;>
        rcases hin with h | h | h <;> (try rw [← h] at htype) <;> simp_all
    · split at hin
      · cases hf : firstGapFlag (sortByStart cand.work_experience) with
        | none => rw [hf] at hin; simp at hin
        | some g =>
          rw [hf] at hin
          simp at hin
          rw [hin]
          exact (firstGapFlag_shape _ g hf).2
      · simp at hin

/-- C7 witness candidate: two roles with a 9-month gap (ends 2020-01,
next starts 2020-10). -/
def c7cand : ParsedCandidate :=
  { work_experience :=
      [{ employer := "A Corp", title := "Dev", start_date := some ⟨2019, 1, 10⟩,
         end_date := some ⟨2020, 1, 15⟩ },
       { employer := "B Corp", title := "Dev", start_date := some ⟨2020, 10, 20⟩,
         end_date := some ⟨2022, 1, 1⟩ }] }

/-- Witness for C7 at a concrete input with a 9-month gap. -/
theorem employment_gap_flag_unique_witness :
    hasGapB (sortByStart c7cand.work_experience) = true ∧
    gapFlagCount (generateFlags c7cand 100 100 100) = 1 :=
  ⟨by decide, (employment_gap_flag_unique c7cand 100 100 100).2.1 (by decide)⟩

theorem extractTextE_classify (p d x f : List Char) :
    (fileExt f ∈ supportedExts ∧ ∃ t, extractTextE p d x f = Except.ok t) ∨
    (fileExt f ∉ supportedExts ∧
      extractTextE p d x f = Except.error (DocErr.unsupportedFileType (mkStr (fileExt f)))) := by
  unfold extractTextE
  simp only []
  split_ifs with h1 h2 h3
  · exact Or.inl ⟨by simp [supportedExts, h1], p, rfl⟩
  · refine Or.inl ⟨?_, d, rfl⟩
    rcases h2 with h | h <;> simp [supportedExts, h]
  · exact Or.inl ⟨by simp [supportedExts, h3], x, rfl⟩
  · refine Or.inr ⟨?_, rfl⟩
    simp only [supportedExts, List.mem_cons, List.not_mem_nil, or_false]
    push_neg
    exact ⟨h1, fun hh => absurd (Or.inl hh) h2, fun hh => absurd (Or.inr hh) h2, h3⟩

theorem pyStrip_nil : pyStrip ([] : List Char) = [] := rfl

/-- C8: text extraction fails with `UnsupportedFileType` exactly when the
lower-cased last dot-separated component of the filename is not one of
pdf/docx/doc/txt; extraction succeeds exactly on the supported
extensions; and, given the extracted text of the chosen branch, the
document gate fails with `EmptyDocument` exactly when the stripped text
is shorter than 50 characters (an empty text strips to length 0), and
otherwise parsing proceeds with that text. -/
theorem extract_text_error_classification (pdfText docxText txtText filename : List Char) :
    ((fileExt filename ∉ supportedExts) ↔
      parseFileGate pdfText docxText txtText filename
        = .error (.unsupportedFileType (mkStr (fileExt filename)))) ∧
    ((fileExt filename ∈ supportedExts) ↔
      ∃ t, extractTextE pdfText docxText txtText filename = .ok t) ∧
    (∀ t, extractTextE pdfText docxText txtText filename = .ok t →
      ((parseFileGate pdfText docxText txtText filename = .error .emptyDocument) ↔
        (pyStrip t).length < 50) ∧
      (50 ≤ (pyStrip t).length →
        parseFileGate pdfText docxText txtText filename = .ok t)) := by
  have hcl := extractTextE_classify pdfText docxText txtText filename
  refine ⟨?_, ?_, ?_⟩
  · constructor
    · intro hno
      rcases hcl with ⟨hmem, _⟩ | ⟨_, herr⟩
      · exact absurd hmem hno
      · unfold parseFileGate
        rw [herr]
    · intro heq
      rcases hcl with ⟨hmem, t, hok⟩ | ⟨hnm, _⟩
      · have hgate : parseFileGate pdfText docxText txtText filename
            = (if t.isEmpty ∨ (pyStrip t).length < 50 then Except.error DocErr.emptyDocument
               else Except.ok t) := by
          unfold parseFileGate
          rw [hok]
        rw [hgate] at heq
        split at heq <;> simp at heq
      · exact hnm
  · constructor
    · intro hmem
      rcases hcl with ⟨_, ht⟩ | ⟨hnm, _⟩
      · exact ht
      · exact absurd hmem hnm
    · rintro ⟨t, hok⟩
      rcases hcl with ⟨hmem, _⟩ | ⟨_, herr⟩
      · exact hmem
      · rw [hok] at herr
        exact absurd herr (by simp)
  · intro t hok
    have hgate : parseFileGate pdfText docxText txtText filename
        = (if t.isEmpty ∨ (pyStrip t).length < 50 then Except.error DocErr.emptyDocument
           else Except.ok t) := by
      unfold parseFileGate
      rw [hok]
    rw [hgate]
    constructor
    · constructor
      · intro herr
        split at herr
        · next hcond =>
            rcases hcond with he | hlt
            · have ht : t = [] := by simpa using he
              rw [ht, pyStrip_nil]
              norm_num
            · exact hlt
        · simp at herr
      · intro hlt
        rw [if_pos (Or.inr hlt)]
    · intro h50
      rw [if_neg ?hc]
      case hc =>
        rintro (he | hlt)
        · have ht : t = [] := by simpa using he
          rw [ht, pyStrip_nil] at h50
          exact absurd h50 (by norm_num)
        · omega

/-- A 60-character text used to witness C8. -/
def longText : List Char := List.replicate 60 'a'

/-- Witness for C8: a txt file with 60 characters parses cleanly. -/
theorem extract_text_error_classification_witness :
    parseFileGate [] [] longText ("cv.txt".toList) = .ok longText :=
  ((extract_text_error_classification [] [] longText ("cv.txt".toList)).2.2 longText
    rfl).2 (by decide)

/-- C6 counterexample entry: a work block whose date range lists the
later date first. -/
def e6entry : List Char := "Senior Engineer\nAcme Corp\nJan 2023 - Mar 2020".toList

def w6res : WorkExperience := (parseWorkEntry e6entry t0).getD default

/-- C6 (counterexample): on the range-pattern path `_extract_dates`
returns the dates in textual order without sorting, so the reversed
range "Jan 2023 - Mar 2020" yields `start_date` 2023-01 and `end_date`
2020-03 — `end_date < start_date`, violating the claimed invariant
(`duration_months` is still clamped to 1). -/
theorem reversed_range_gives_end_before_start :
    parseWorkEntry e6entry t0 = some w6res ∧
    w6res.start_date = some ⟨2023, 1, 1⟩ ∧
    w6res.end_date = some ⟨2020, 3, 1⟩ ∧
    pdLe ⟨2023, 1, 1⟩ ⟨2020, 3, 1⟩ = false ∧
    w6res.duration_months = some 1 := by
  refine ⟨by decide, by decide, by decide, by decide, by decide⟩

/-- C6 (amended): every `WorkExperience` the parser produces has
`duration_months` defined and at least 1 whenever `start_date` is known;
and whenever no "Month Year – Month Year/Present" range matches (so the
dates come from the sorted fallback scan), the extracted date list is
pairwise ordered, hence `end_date ≥ start_date`.  On the range-pattern
path the parser stores the dates in textual order, so the ordering holds
only when the document lists the earlier date first (see the
counterexample). -/
theorem duration_floor_and_fallback_sorted :
    (∀ (entry : List Char) (today : PDate) (w : WorkExperience),
      parseWorkEntry entry today = some w → ∀ s, w.start_date = some s →
        ∃ d, w.duration_months = some d ∧ 1 ≤ d) ∧
    (∀ (text : List Char) (today : PDate), findRanges text = [] →
      ∀ a b, extractDates text today = [a, b] → pdLe a b = true) := by
  constructor
  · intro entry today w h s hs
    unfold parseWorkEntry at h
    simp only [] at h
    split at h
    · exact absurd h (by simp)
    · injection h with h'
      subst h'
      simp only [] at hs ⊢
      rw [hs]
      exact ⟨_, rfl, le_max_left _ _⟩
  · intro text today hnr a b hab
    unfold extractDates at hab
    rw [hnr] at hab
    simp only [List.foldl_nil] at hab
    rw [if_neg (by simp)] at hab
    have hp : List.Pairwise pdLeP ((pySortedSet
        ((findMonthYearTokens text).filterMap (fun my =>
          if 1990 ≤ my.2 ∧ my.2 ≤ 2030 then some (⟨my.2, my.1, 1⟩ : PDate) else none) ++
         (findNumMonthYear text).filterMap (fun my =>
          if 1 ≤ my.1 ∧ my.1 ≤ 12 ∧ 1990 ≤ my.2 ∧ my.2 ≤ 2030 then
            some (⟨my.2, my.1, 1⟩ : PDate)
          else none) ++
         (findBareYears text).filterMap (fun y =>
          if 1990 ≤ y ∧ y ≤ 2030 then some (⟨y, today.month, 1⟩ : PDate) else none))).take 2) := by
      refine List.Pairwise.sublist (List.take_sublist _ _) ?_
      exact List.sorted_insertionSort pdLeP _
    rw [hab] at hp
    have := (List.pairwise_cons.mp hp).1 b (by simp)
    exact this

/-- A well-formed work entry used to witness C6's amended theorem. -/
def e6good : List Char := "Dev\nAcme Corp\nJan 2020 - Mar 2021".toList

/-- A date-bearing text with no range pattern, to witness the fallback
part of C6. -/
def e6fallback : List Char := "from 2019 until Jan 2021".toList

/-- Witness for C6's amended theorem at concrete inputs: the parsed
entry has duration 14 ≥ 1, and the fallback dates come out sorted. -/
theorem duration_floor_and_fallback_sorted_witness :
    1 ≤ ((parseWorkEntry e6good t0).getD default).duration_months.getD 0 ∧
    pdLe ⟨2019, 10, 1⟩ ⟨2021, 1, 1⟩ = true := by
  constructor
  · obtain ⟨d, hd, h1⟩ := duration_floor_and_fallback_sorted.1 e6good t0
      ((parseWorkEntry e6good t0).getD default) (by decide) ⟨2020, 1, 1⟩ (by decide)
    rw [hd]
    simpa using h1
  · exact duration_floor_and_fallback_sorted.2 e6fallback t0 (by decide) _ _ (by decide)

theorem mkStr_take_length_le (l : List Char) (n : ℕ) : (mkStr (pyTake n l)).length ≤ n := by
  have h : (mkStr (pyTake n l)).length = (pyTake n l).length := rfl
  rw [h]
  unfold pyTake
  rw [List.length_take]
  exact min_le_left _ _

/-- C10: every string the rule-based parser stores in
`WorkExperience.employer`, `WorkExperience.title`,
`Education.institution` and `Certification.name` comes from a `[:200]`
slice, so its length never exceeds 200 characters. -/
theorem stored_strings_truncated_200 :
    (∀ (entry : List Char) (today : PDate) (w : WorkExperience),
      parseWorkEntry entry today = some w →
        w.employer.length ≤ 200 ∧ w.title.length ≤ 200) ∧
    (∀ (entry : List Char) (today : PDate) (ed : Education),
      parseEducationEntry entry today = some ed → ed.institution.length ≤ 200) ∧
    (∀ (certText : List Char) (today : PDate) (c : Certification),
      c ∈ extractCertLines certText today → c.name.length ≤ 200) := by
  refine ⟨?_, ?_, ?_⟩
  · intro entry today w h
    unfold parseWorkEntry at h
    simp only [] at h
    split at h
    · exact absurd h (by simp)
    · injection h with h'
      subst h'
      exact ⟨mkStr_take_length_le _ _, mkStr_take_length_le _ _⟩
  · intro entry today ed h
    unfold parseEducationEntry at h
    simp only [] at h
    split at h
    · exact absurd h (by simp)
    · injection h with h'
      subst h'
      exact mkStr_take_length_le _ _
  · intro certText today c h
    unfold extractCertLines at h
    have h2 := List.mem_of_mem_take h
    obtain ⟨line, _, hline⟩ := List.mem_filterMap.mp h2
    split at hline
    · injection hline with h'
      subst h'
      exact mkStr_take_length_le _ _
    · exact absurd hline (by simp)

/-- A certification section line used to witness C10. -/
def c10line : List Char := "AWS Certified Solutions Architect 2020".toList

/-- Witness for C10 at concrete inputs. -/
theorem stored_strings_truncated_200_witness :
    ((parseWorkEntry e6good t0).getD default).employer.length ≤ 200 ∧
    ((extractCertLines c10line t0).headD default).name.length ≤ 200 :=
  ⟨(stored_strings_truncated_200.1 e6good t0 _ (by decide)).1,
   stored_strings_truncated_200.2.2 c10line t0 _ (by decide)⟩

/-- C2: the claim says every component score of a produced
`ScoringResult` lies in [0, 100] and in particular the mid/senior
meets-minimum branch never yields a negative experience score.  On this
input the branch computes an experience component of −425 (contribution
−106.25); the pydantic validators on `ScoreBreakdown` then reject the
value, so `score` raises (modelled as `none`) rather than return a
result in bounds. -/
theorem experience_score_negative_below_minimum :
    detectJobLevel c2job = JobLevel.senior ∧
    scoreExperience c2cand c2job (detectJobLevel c2job) t0 = some (-425, -425/4) ∧
    scoreE c2cand c2job none t0 "unknown" = none := by
  refine ⟨by decide, by decide, by decide⟩

end QR
